import Mathlib

/-!
Verification development for the quota / security / download core of the
AKGTELEGRAMBOT repository.  Python source functions are shallowly embedded
as Lean functions: time is a `Nat` count of seconds (days for the trust
ledger, which only uses `.days`), machine `datetime`s become `Nat`
timestamps, SQL rows become records, and `None` becomes `Option.none`.
Python's explicit `max(0, _)` floors are rendered by `Nat` subtraction,
which implements exactly that floor.
-/

namespace AKG

/-! ## Quota ledger (src/utils/database.py)

A row of the `users` table, restricted to the columns read or written by
`get_download_stats`, `increment_download_count`, `reset_hourly_downloads`,
`check_prime_status` and `set_prime_status`. -/

structure UserRow where
  downloads_this_hour : Nat
  downloads_today : Nat
  downloads_count : Nat
  last_download : Option Nat
  hour_reset_time : Option Nat
  cooldown_until : Option Nat
  is_prime : Bool
  prime_expiry : Option Nat
  deriving Repr, DecidableEq

/-- The freshly registered user: zero counters, no premium, no cooldown. -/
def fresh_user : UserRow :=
  { downloads_this_hour := 0
    downloads_today := 0
    downloads_count := 0
    last_download := none
    hour_reset_time := none
    cooldown_until := none
    is_prime := false
    prime_expiry := none }

/-- Result dict of `check_prime_status`. -/
structure PrimeStatus where
  is_prime : Bool
  expired : Bool
  deriving Repr, DecidableEq

/-- `set_prime_status` (database.py:394-430): updates `is_prime` and
`prime_expiry`; when revoking, `expiry_date` stays `None`.  The admin-action
log insert is not part of the quota state. -/
def set_prime_status (u : UserRow) (p : Bool) (expiry : Option Nat) : UserRow :=
  { u with is_prime := p, prime_expiry := if p then expiry else none }

/-- `check_prime_status` (database.py:432-456) on an existing row: a prime
user whose expiry has passed (`now > expiry`) is lazily demoted via
`set_prime_status(user_id, False)`; the (possibly demoted) row is returned
alongside the status dict.  The user-not-found branch of the source is
handled by the callers' own existence checks. -/
def check_prime_status (u : UserRow) (now : Nat) : PrimeStatus × UserRow :=
  if u.is_prime = false then ({ is_prime := false, expired := false }, u)
  else
    match u.prime_expiry with
    | some e =>
        if now > e then
          ({ is_prime := false, expired := true }, set_prime_status u false none)
        else ({ is_prime := true, expired := false }, u)
    | none => ({ is_prime := true, expired := false }, u)

/-- `reset_hourly_downloads` (database.py:532-549): zero the hourly counter,
move the reset time one hour ahead, clear the cooldown. -/
def reset_hourly_downloads (u : UserRow) (now : Nat) : UserRow :=
  { u with downloads_this_hour := 0
           hour_reset_time := some (now + 3600)
           cooldown_until := none }

/-- Result dict of `get_download_stats`. -/
structure DownloadStats where
  downloads_this_hour : Nat
  can_download : Bool
  reset_time : Option Nat
  in_cooldown : Bool
  cooldown_until : Option Nat
  deriving Repr, DecidableEq

/-- The source's reset test `not hour_reset_time or now >= hour_reset_time`
(database.py:481). -/
def hour_expired (hrt : Option Nat) (now : Nat) : Bool :=
  match hrt with
  | none => true
  | some t => now ≥ t

/-- `get_download_stats` (database.py:458-499), the quota `evaluate`.
Mirrors the source's local-variable dance: `cooldown_until` is read *before*
the possible hourly reset and is **not** refreshed afterwards, so the
returned `in_cooldown` flag uses the stale value; the stored row, however,
is the reset row, further updated by the lazy premium-expiry demotion inside
`check_prime_status`.  Returns (stats dict, new stored row). -/
def get_download_stats (row : Option UserRow) (now : Nat) :
    DownloadStats × Option UserRow :=
  match row with
  | none =>
      ({ downloads_this_hour := 0, can_download := false, reset_time := none,
         in_cooldown := false, cooldown_until := none }, none)
  | some u =>
      let cd := u.cooldown_until
      let u1 := if hour_expired u.hour_reset_time now
                then reset_hourly_downloads u now else u
      let in_cd : Bool :=
        match cd with
        | none => false
        | some t => now < t
      let ps := check_prime_status u1 now
      let can := ps.1.is_prime || (decide (u1.downloads_this_hour < 15) && !in_cd)
      ({ downloads_this_hour := u1.downloads_this_hour
         can_download := can
         reset_time := u1.hour_reset_time
         in_cooldown := in_cd
         cooldown_until := cd }, some ps.2)

/-- `increment_download_count` (database.py:501-530), the quota `commit`:
bumps the counters, and sets a 30-minute cooldown exactly when the new count
reaches 15 for a non-premium user — otherwise the stored cooldown is
overwritten with `NULL`.  Returns (success flag, new stored row). -/
def increment_download_count (row : Option UserRow) (now : Nat) :
    Bool × Option UserRow :=
  match row with
  | none => (false, none)
  | some u =>
      let d := u.downloads_this_hour + 1
      let ps := check_prime_status u now
      let cd : Option Nat :=
        if ps.1.is_prime = false ∧ d ≥ 15 then some (now + 30 * 60) else none
      (true, some { ps.2 with
                      downloads_this_hour := d
                      downloads_today := ps.2.downloads_today + 1
                      downloads_count := ps.2.downloads_count + 1
                      last_download := some now
                      cooldown_until := cd })

/-- Iterated commit at time `t` (the state moved through `n` successful
download commits). -/
def commitN (t : Nat) (n : Nat) (row : Option UserRow) : Option UserRow :=
  Nat.iterate (fun r => (increment_download_count r t).2) n row

/-! ### Helper lemmas about the quota operations -/

lemma hour_expired_none (now : Nat) : hour_expired none now = true := rfl

lemma hour_expired_some (t now : Nat) :
    hour_expired (some t) now = decide (now ≥ t) := rfl

/-- `check_prime_status` never touches the hourly counters or the cooldown:
its only write path is `set_prime_status(user_id, False)`. -/
lemma check_prime_status_snd_quota (v : UserRow) (now : Nat) :
    ((check_prime_status v now).2).hour_reset_time = v.hour_reset_time ∧
    ((check_prime_status v now).2).downloads_this_hour = v.downloads_this_hour ∧
    ((check_prime_status v now).2).cooldown_until = v.cooldown_until := by
  cases hp : v.is_prime <;> cases he : v.prime_expiry <;>
    simp [check_prime_status, set_prime_status, hp, he]
  split <;> simp

/-- Lazy premium-expiry demotion is idempotent. -/
lemma check_prime_status_idem (v : UserRow) (now : Nat) :
    (check_prime_status ((check_prime_status v now).2) now).2 =
      (check_prime_status v now).2 := by
  by_cases hp : v.is_prime = false
  · simp [check_prime_status, hp]
  · rw [Bool.not_eq_false] at hp
    cases he : v.prime_expiry with
    | none => simp [check_prime_status, hp, he]
    | some e =>
      by_cases hlt : now > e
      · simp [check_prime_status, set_prime_status, hp, he, hlt]
      · simp [check_prime_status, hp, he, hlt]

/-- The premium status reported by `check_prime_status` only depends on the
premium columns, which the hourly reset leaves alone. -/
lemma check_prime_status_fst_reset (u : UserRow) (now t : Nat) :
    (check_prime_status (reset_hourly_downloads u t) now).1 =
      (check_prime_status u now).1 := by
  by_cases hp : u.is_prime = false
  · simp [check_prime_status, reset_hourly_downloads, hp]
  · rw [Bool.not_eq_false] at hp
    cases he : u.prime_expiry with
    | none => simp [check_prime_status, reset_hourly_downloads, hp, he]
    | some e =>
      by_cases hlt : now > e
      · simp [check_prime_status, set_prime_status, reset_hourly_downloads,
              hp, he, hlt]
      · simp [check_prime_status, reset_hourly_downloads, hp, he, hlt]

/-- Unfolding of the stored-row component of `get_download_stats`. -/
lemma get_download_stats_snd (u : UserRow) (now : Nat) :
    (get_download_stats (some u) now).2 =
      some (check_prime_status
              (if hour_expired u.hour_reset_time now
               then reset_hourly_downloads u now else u) now).2 := rfl

/-- Unfolding of the `can_download` flag of `get_download_stats`. -/
lemma get_download_stats_can (u : UserRow) (now : Nat) :
    (get_download_stats (some u) now).1.can_download =
      (let u1 := if hour_expired u.hour_reset_time now
                 then reset_hourly_downloads u now else u
       (check_prime_status u1 now).1.is_prime ||
         (decide (u1.downloads_this_hour < 15) &&
          !(match u.cooldown_until with
            | none => false
            | some t => now < t : Bool))) := rfl

/-! ### Claim C1 — threshold-crossing commit sets the cooldown -/

/-- C1.  A quota commit by a non-premium identity whose increment reaches
the 15-downloads-per-period threshold stores `cooldown_until = now + 30min`
as part of the commit itself; concretely, starting from a fresh identity
whose period was opened by one `evaluate`, the 15th commit leaves the 16th
`evaluate` returning `can_download = false` with the cooldown set, while the
15th `evaluate` (after only 14 commits) still allowed. -/
theorem commit_crossing_threshold_sets_cooldown :
    (∀ (u : UserRow) (now : Nat),
        (check_prime_status u now).1.is_prime = false →
        u.downloads_this_hour + 1 ≥ 15 →
        ∃ u', (increment_download_count (some u) now).2 = some u' ∧
              u'.cooldown_until = some (now + 30 * 60) ∧
              u'.downloads_this_hour = u.downloads_this_hour + 1) ∧
    ((get_download_stats (commitN 0 14
        ((get_download_stats (some fresh_user) 0).2)) 0).1.can_download = true ∧
     (get_download_stats (commitN 0 15
        ((get_download_stats (some fresh_user) 0).2)) 0).1.can_download = false ∧
     (get_download_stats (commitN 0 15
        ((get_download_stats (some fresh_user) 0).2)) 0).1.in_cooldown = true ∧
     (get_download_stats (commitN 0 15
        ((get_download_stats (some fresh_user) 0).2)) 0).1.cooldown_until
        = some (30 * 60)) := by
  constructor
  · intro u now hp hc
    refine ⟨_, rfl, ?_, rfl⟩
    simp only [increment_download_count]
    rw [if_pos ⟨hp, hc⟩]
  · exact ⟨by decide, by decide, by decide, by decide⟩

/-- C1 witness: the general part applied at the concrete row holding 14
downloads this period. -/
theorem commit_crossing_threshold_sets_cooldown_witness :
    ∃ u', (increment_download_count
            (some { fresh_user with downloads_this_hour := 14 }) 0).2 = some u' ∧
          u'.cooldown_until = some (0 + 30 * 60) ∧
          u'.downloads_this_hour =
            ({ fresh_user with downloads_this_hour := 14 } :
              UserRow).downloads_this_hour + 1 :=
  commit_crossing_threshold_sets_cooldown.1
    { fresh_user with downloads_this_hour := 14 } 0 (by decide) (by decide)

/-! ### Claim C7 — `evaluate` is not read-only, but it is idempotent -/

/-- C7 counterexample: an `evaluate` with no intervening commit **does**
change the stored quota state — on a row whose period marker is unset (or
expired) it zeroes `downloads_this_hour` and rewrites `hour_reset_time`. -/
theorem evaluate_mutates_state_counterexample :
    (get_download_stats (some { fresh_user with downloads_this_hour := 3 }) 0).2 ≠
      some { fresh_user with downloads_this_hour := 3 } := by decide

/-- C7 (amended).  `evaluate` is idempotent on the stored state: the row
written by one `get_download_stats` call is left unchanged by a second call
at the same instant, for every starting row and time. -/
theorem evaluate_idempotent (row : Option UserRow) (now : Nat) :
    (get_download_stats ((get_download_stats row now).2) now).2 =
      (get_download_stats row now).2 := by
  cases row with
  | none => rfl
  | some u =>
    rw [get_download_stats_snd]
    rw [get_download_stats_snd]
    set u1 := if hour_expired u.hour_reset_time now
              then reset_hourly_downloads u now else u with hu1
    set w := (check_prime_status u1 now).2 with hw
    have hhrt : w.hour_reset_time = u1.hour_reset_time :=
      (check_prime_status_snd_quota u1 now).1
    have hexp : hour_expired w.hour_reset_time now = false := by
      rw [hhrt, hu1]
      by_cases h : hour_expired u.hour_reset_time now
      · rw [if_pos h]
        simp only [reset_hourly_downloads, hour_expired_some]
        simp
      · rw [if_neg h]
        exact Bool.not_eq_true _ |>.mp h
    rw [hexp]
    simp only [Bool.false_eq_true, if_false, hw]
    exact congrArg some (check_prime_status_idem u1 now)

/-! ### Claim C6 — premium vs cooldown -/

/-- The state reached by granting premium (permanent, admin grant) to the
identity that has just finished its 15-download period and entered cooldown. -/
def premium_after_cooldown : Option UserRow :=
  match commitN 0 15 ((get_download_stats (some fresh_user) 0).2) with
  | some u => some (set_prime_status u true none)
  | none => none

/-- C6 counterexample: granting premium does not clear an existing cooldown,
so a sequence of commits followed by an admin grant yields a row with
`is_prime = true` and `cooldown_until ≠ null` — the stated invariant fails. -/
theorem premium_cooldown_invariant_counterexample :
    premium_after_cooldown.map UserRow.is_prime = some true ∧
    premium_after_cooldown.map UserRow.cooldown_until = some (some (30 * 60)) := by
  exact ⟨by decide, by decide⟩

/-- C6 (amended).  A premium identity is never *limited*: whenever the
premium check passes, `evaluate` answers `can_download = true` (unlimited
downloads, cooldown ignored), and a commit by a premium identity always
stores `cooldown_until = null`; but an admin grant does not erase a cooldown
timestamp already present, so `cooldown_until` need not be null for a
premium identity. -/
theorem premium_unlimited_and_commit_clears_cooldown :
    (∀ (u : UserRow) (now : Nat),
        (check_prime_status u now).1.is_prime = true →
        (get_download_stats (some u) now).1.can_download = true) ∧
    (∀ (u : UserRow) (now : Nat),
        (check_prime_status u now).1.is_prime = true →
        ∃ u', (increment_download_count (some u) now).2 = some u' ∧
              u'.cooldown_until = none) := by
  constructor
  · intro u now hp
    rw [get_download_stats_can]
    have h1 : ∀ u1 : UserRow,
        u1 = (if hour_expired u.hour_reset_time now
              then reset_hourly_downloads u now else u) →
        (check_prime_status u1 now).1.is_prime = true := by
      intro u1 h
      by_cases hexp : hour_expired u.hour_reset_time now
      · rw [h, if_pos hexp, check_prime_status_fst_reset]
        exact hp
      · rw [h, if_neg hexp]
        exact hp
    simp only [h1 _ rfl, Bool.true_or]
  · intro u now hp
    refine ⟨_, rfl, ?_⟩
    simp only [increment_download_count]
    rw [if_neg]
    intro hcontra
    rw [hp] at hcontra
    exact absurd hcontra.1 (by decide)

/-- C6 (amended) witness: both parts at a concrete permanent-premium row and
`now = 0`. -/
theorem premium_unlimited_and_commit_clears_cooldown_witness :
    ((get_download_stats (some { fresh_user with is_prime := true }) 0).1.can_download
        = true) ∧
    (∃ u', (increment_download_count
              (some { fresh_user with is_prime := true }) 0).2 = some u' ∧
           u'.cooldown_until = none) :=
  ⟨premium_unlimited_and_commit_clears_cooldown.1
      { fresh_user with is_prime := true } 0 (by decide),
   premium_unlimited_and_commit_clears_cooldown.2
      { fresh_user with is_prime := true } 0 (by decide)⟩

/-! ## Trust ledger (src/utils/security.py)

The per-identity entry of `SecurityManager.suspicious_users`.  Days stand in
for `datetime`s: the score computation only ever uses
`(now - last_violation).days`.  Python's `max(0, _)` floors are `Nat`
subtraction. -/

structure SuspiciousInfo where
  violations : Nat
  first_violation : Option Nat
  last_violation : Option Nat
  violation_types : List String
  trust_score : Nat
  deriving Repr, DecidableEq

/-- The defaultdict entry for a fresh identity (security.py:38-44). -/
def fresh_suspicious : SuspiciousInfo :=
  { violations := 0, first_violation := none, last_violation := none,
    violation_types := [], trust_score := 100 }

/-- `_flag_suspicious_user` (security.py:481-516), the `recordViolation`
operation: bumps the violation count, stamps the violation times, records
the type, and floors the stored score at 0 after subtracting 15.  The
auto-ban side effect touches only the blocked set, not this record. -/
def flag_suspicious_user (u : SuspiciousInfo) (vtype : String) (nowDay : Nat) :
    SuspiciousInfo :=
  { violations := u.violations + 1
    first_violation :=
      match u.first_violation with
      | none => some nowDay
      | some d => some d
    last_violation := some nowDay
    violation_types :=
      if u.violation_types.contains vtype then u.violation_types
      else u.violation_types ++ [vtype]
    trust_score := u.trust_score - 15 }

/-- `_calculate_trust_score` (security.py:411-435): stored score minus 10
per recorded violation (floored at 0), plus a recovery bonus of 2 per day
since the last violation capped at 20 points, the sum capped at 100.  A pure
read — no field of the record is written. -/
def calculate_trust_score (u : SuspiciousInfo) (nowDay : Nat) : Nat :=
  let score := u.trust_score - u.violations * 10
  match u.last_violation with
  | none => score
  | some d =>
      let recovery := min 20 ((nowDay - d) * 2)
      min 100 (score + recovery)

/-- Folding a whole history of violations over the fresh record. -/
def apply_violations (ops : List (String × Nat)) : SuspiciousInfo :=
  ops.foldl (fun u p => flag_suspicious_user u p.1 p.2) fresh_suspicious

lemma flag_trust_le (u : SuspiciousInfo) (vtype : String) (d : Nat) :
    (flag_suspicious_user u vtype d).trust_score ≤ u.trust_score := by
  simp only [flag_suspicious_user]
  omega

lemma foldl_trust_le (ops : List (String × Nat)) (u : SuspiciousInfo) :
    (ops.foldl (fun u p => flag_suspicious_user u p.1 p.2) u).trust_score ≤
      u.trust_score := by
  induction ops generalizing u with
  | nil => exact Nat.le_refl _
  | cons p ps ih =>
      exact Nat.le_trans (ih (flag_suspicious_user u p.1 p.2))
        (flag_trust_le u p.1 p.2)

lemma calculate_trust_score_le (u : SuspiciousInfo) (nowDay : Nat)
    (h : u.trust_score ≤ 100) : calculate_trust_score u nowDay ≤ 100 := by
  unfold calculate_trust_score
  cases hl : u.last_violation with
  | none => simp only [hl]; omega
  | some d => simp only [hl]; exact Nat.min_le_left _ _

/-! ### Claim C3 — the computed trust score stays in [0, 100] -/

/-- C3.  For any sequence of `recordViolation` calls applied to a fresh
identity (stored score 100), the score computed by
`_calculate_trust_score` lies in [0, 100] at every read time.  The lower
bound is the source's explicit `max(0, _)` floor, rendered here by the
`Nat`-valued score. -/
theorem trust_score_in_range (ops : List (String × Nat)) (nowDay : Nat) :
    0 ≤ calculate_trust_score (apply_violations ops) nowDay ∧
    calculate_trust_score (apply_violations ops) nowDay ≤ 100 :=
  ⟨Nat.zero_le _,
   calculate_trust_score_le _ _ (foldl_trust_le ops fresh_suspicious)⟩

/-! ### Claim C10 — effective penalty of 25 per violation -/

/-- `v` back-to-back violations on a fresh identity, all on day 0. -/
def repeat_violations (v : Nat) : SuspiciousInfo :=
  Nat.iterate (fun u => flag_suspicious_user u "low_trust_score" 0) v
    fresh_suspicious

lemma repeat_violations_succ (n : Nat) :
    repeat_violations (n + 1) =
      flag_suspicious_user (repeat_violations n) "low_trust_score" 0 := by
  simp only [repeat_violations, Function.iterate_succ_apply']

lemma repeat_violations_spec (v : Nat) :
    (repeat_violations v).violations = v ∧
    (repeat_violations v).trust_score = 100 - 15 * v ∧
    (repeat_violations v).last_violation =
      (if v = 0 then none else some 0) := by
  induction v with
  | zero => exact ⟨rfl, rfl, rfl⟩
  | succ n ih =>
      obtain ⟨h1, h2, h3⟩ := ih
      rw [repeat_violations_succ]
      refine ⟨by simp [flag_suspicious_user, h1], ?_, by simp [flag_suspicious_user]⟩
      simp only [flag_suspicious_user, h2]
      omega

/-- C10.  With zero days elapsed, each violation costs 25 effective points:
15 off the stored score at record time and 10 more per violation at read
time, so after `v` violations the computed score is `max(0, 100 − 25·v)`;
the deny threshold (score < 20) is first reached at the 4th violation. -/
theorem trust_effective_penalty (v : Nat) :
    ((calculate_trust_score (repeat_violations v) 0 : Int) =
        max 0 (100 - 25 * v)) ∧
    calculate_trust_score (repeat_violations 4) 0 < 20 ∧
    ¬ calculate_trust_score (repeat_violations 3) 0 < 20 := by
  refine ⟨?_, by decide, by decide⟩
  obtain ⟨h1, h2, h3⟩ := repeat_violations_spec v
  cases v with
  | zero =>
      simp only [calculate_trust_score, h1, h2, h3, if_pos rfl]
      norm_num
  | succ n =>
      have hne : n + 1 ≠ 0 := Nat.succ_ne_zero n
      simp only [calculate_trust_score, h1, h2, h3, if_neg hne]
      have : min 100 (100 - 15 * (n + 1) - (n + 1) * 10 + min 20 ((0 - 0) * 2))
          = 100 - 25 * (n + 1) := by omega
      rw [this]
      omega

/-! ### Claim C4 — recovery is capped at 20 points, not only at 100 -/

/-- The recovery rule as the claim states it: +2 per violation-free day,
"capped only at 100". -/
def trust_recovery_spec_version (stored violations days : Nat) : Nat :=
  min 100 (stored - violations * 10 + days * 2)

/-- The identity one violation deep (recorded on day 0): stored score 85. -/
def one_violation : SuspiciousInfo := flag_suspicious_user fresh_suspicious
  "low_trust_score" 0

/-- C4 counterexample: eleven violation-free days after a single violation
the claim's "+2/day capped only at 100" rule predicts 97, and long enough
violation-free stretches would return the score to 100 — but the source
caps the recovery bonus at 20 points (`min(20, days*2)`), so the code
computes 95 on day 11 and still 95 on day 1000. -/
theorem trust_recovery_cap_counterexample :
    calculate_trust_score one_violation 11 = 95 ∧
    trust_recovery_spec_version 85 1 11 = 97 ∧
    calculate_trust_score one_violation 1000 = 95 := by
  exact ⟨by decide, by decide, by decide⟩

/-- C4 (amended).  For an identity with at least one recorded violation the
score read recomputes, without mutating the record, to
`min(100, max(0, stored − 10·violations) + min(20, 2·daysSinceLast))`: the
time-decay recovery is +2 per day **capped at 20 points**, and then the
total is capped at 100 — so an identity whose floored base lies below 80
never returns to 100 by decay alone. -/
theorem trust_recovery_formula (u : SuspiciousInfo) (nowDay d : Nat)
    (h : u.last_violation = some d) :
    calculate_trust_score u nowDay =
      min 100 (u.trust_score - u.violations * 10 + min 20 ((nowDay - d) * 2)) := by
  simp only [calculate_trust_score, h]

/-- C4 (amended) witness: the formula at the one-violation identity on
day 11. -/
theorem trust_recovery_formula_witness :
    calculate_trust_score one_violation 11 =
      min 100 (one_violation.trust_score - one_violation.violations * 10 +
               min 20 ((11 - 0) * 2)) :=
  trust_recovery_formula one_violation 11 0 (by decide)

/-! ## Rate limiting (src/utils/security.py, `_check_rate_limits`)

One identity's deque plus the global deque, oldest entries first.  The
source evicts with `while deque and deque[0] < current_time - window:
popleft()`; with `Nat` timestamps the truncated cutoff `now - window` keeps
exactly the same entries as Python's possibly-negative cutoff, since all
timestamps are ≥ 0. -/

/-- The eviction loop: drop the leading timestamps older than the cutoff. -/
def evict (cutoff : Nat) : List Nat → List Nat
  | [] => []
  | t :: ts => if t < cutoff then evict cutoff ts else t :: ts

/-- `collections.deque(maxlen=n).append`: a full deque discards its oldest
entry. -/
def deque_append (maxlen : Nat) (xs : List Nat) (x : Nat) : List Nat :=
  if xs.length ≥ maxlen then List.drop (xs.length + 1 - maxlen) xs ++ [x]
  else xs ++ [x]

structure RateState where
  user_requests : List Nat
  global_requests : List Nat
  deriving Repr, DecidableEq

/-- The `user_requests` scope (security.py:30): 30 per 60 s. -/
def user_request_window : Nat := 60

def user_request_limit : Nat := 30

/-- The `global_requests` scope (security.py:32): 1000 per 60 s. -/
def global_request_window : Nat := 60

def global_request_limit : Nat := 1000

/-- `_check_rate_limits` (security.py:169-210): evict the identity's stale
timestamps, deny at the per-identity limit (the eviction is the only
mutation; the violation flag raised on denial lives in the trust ledger,
not here); otherwise evict the global deque, deny at the global limit;
otherwise append `now` to both deques and allow. -/
def check_rate_limits (s : RateState) (now : Nat) : Bool × RateState :=
  let ur := evict (now - user_request_window) s.user_requests
  if ur.length ≥ user_request_limit then
    (false, { s with user_requests := ur })
  else
    let gr := evict (now - global_request_window) s.global_requests
    if gr.length ≥ global_request_limit then
      (false, { user_requests := ur, global_requests := gr })
    else
      (true, { user_requests := deque_append 100 ur now
               global_requests := deque_append 1000 gr now })

/-- `n` requests from one identity at time 0 hitting an initially empty
limiter. -/
def rate_burst (n : Nat) : RateState :=
  Nat.iterate (fun s => (check_rate_limits s 0).2) n
    { user_requests := [], global_requests := [] }

/-! ### Claim C2 — the per-identity requests scope -/

set_option maxRecDepth 8000 in
/-- C2.  After evicting entries older than the 60-second window, the check
denies exactly when the per-identity window holds the 30-entry limit —
leaving the window as evicted and the global deque untouched — and
otherwise (with the global scope below its limit) appends the current
timestamp and allows; concretely, of 31 requests from one identity within
60 seconds the 31st is denied (the rate check runs before any trust-score
or quota logic, so nothing else intervenes). -/
theorem rate_limit_requests_scope :
    (∀ (s : RateState) (now : Nat),
        (evict (now - user_request_window) s.user_requests).length =
            user_request_limit →
        (check_rate_limits s now).1 = false ∧
        (check_rate_limits s now).2.user_requests =
            evict (now - user_request_window) s.user_requests ∧
        (check_rate_limits s now).2.global_requests = s.global_requests) ∧
    (∀ (s : RateState) (now : Nat),
        (evict (now - user_request_window) s.user_requests).length <
            user_request_limit →
        (evict (now - global_request_window) s.global_requests).length <
            global_request_limit →
        (check_rate_limits s now).1 = true ∧
        (check_rate_limits s now).2.user_requests =
            evict (now - user_request_window) s.user_requests ++ [now]) ∧
    ((check_rate_limits (rate_burst 29) 59).1 = true ∧
     (check_rate_limits (rate_burst 30) 59).1 = false) := by
  refine ⟨?_, ?_, by decide, by decide⟩
  · intro s now h
    simp only [check_rate_limits]
    rw [if_pos (Nat.le_of_eq h.symm)]
    exact ⟨rfl, rfl, rfl⟩
  · intro s now hu hg
    simp only [check_rate_limits]
    rw [if_neg (Nat.not_le.mpr hu), if_neg (Nat.not_le.mpr hg)]
    refine ⟨rfl, ?_⟩
    show deque_append 100 _ now = _
    rw [deque_append, if_neg]
    simp only [user_request_limit] at hu
    omega

/-- C2 witness: the deny branch at a window already holding 30 timestamps,
and the allow branch at an empty window. -/
theorem rate_limit_requests_scope_witness :
    ((check_rate_limits
        { user_requests := List.replicate 30 0, global_requests := [] } 0).1
      = false ∧
     (check_rate_limits
        { user_requests := List.replicate 30 0, global_requests := [] } 0).2.user_requests
      = evict 0 (List.replicate 30 0) ∧
     (check_rate_limits
        { user_requests := List.replicate 30 0, global_requests := [] } 0).2.global_requests
      = []) ∧
    ((check_rate_limits { user_requests := [], global_requests := [] } 5).1
      = true ∧
     (check_rate_limits { user_requests := [], global_requests := [] } 5).2.user_requests
      = evict 0 [] ++ [5]) :=
  ⟨rate_limit_requests_scope.1
      { user_requests := List.replicate 30 0, global_requests := [] } 0
      (by decide),
   rate_limit_requests_scope.2.1
      { user_requests := [], global_requests := [] } 5
      (by decide) (by decide)⟩

/-! ## Concurrency ceiling (src/utils/download_manager.py)

`AdvancedDownloadManager.__init__` creates `asyncio.Semaphore(max_concurrent)`
(default 5) and every `download_content` call executes its entire guarded
section inside `async with self.semaphore:` — acquire before the body,
guaranteed release after it on every exit path.  The semaphore is modelled
by its counting semantics as a transition system: a state carries the free
permits and the number of jobs currently inside the guarded section;
arbitrary interleavings of job entries and exits are arbitrary step
sequences. -/

structure SemState where
  permits : Nat
  holding : Nat
  deriving Repr, DecidableEq

/-- One scheduler step: a job may enter the guarded section only by taking
a free permit, and leaves by returning it. -/
inductive SemStep : SemState → SemState → Prop
  | acquire (s : SemState) : 0 < s.permits →
      SemStep s ⟨s.permits - 1, s.holding + 1⟩
  | release (s : SemState) : 0 < s.holding →
      SemStep s ⟨s.permits + 1, s.holding - 1⟩

/-- States reachable from the freshly constructed semaphore of capacity `n`
under any submission burst and interleaving. -/
inductive SemReachable (n : Nat) : SemState → Prop
  | start : SemReachable n ⟨n, 0⟩
  | step {s s' : SemState} : SemReachable n s → SemStep s s' →
      SemReachable n s'

/-- `max_concurrent` default (download_manager.py:41). -/
def max_concurrent_default : Nat := 5

lemma sem_reachable_sum {n : Nat} {s : SemState} (h : SemReachable n s) :
    s.permits + s.holding = n := by
  induction h with
  | start => rfl
  | step _ hs ih =>
      cases hs with
      | acquire hp => dsimp only; omega
      | release hh => dsimp only; omega

/-! ### Claim C9 — at most N concurrent slot holders -/

/-- C9.  In every state reachable from the fresh executor, at most `n` jobs
hold a concurrency slot simultaneously, whatever the burst size or
interleaving (`n` the configured maximum, 5 by default). -/
theorem semaphore_bounds_holders (n : Nat) (s : SemState)
    (h : SemReachable n s) : s.holding ≤ n := by
  have := sem_reachable_sum h
  omega

/-- C9 witness: the default-capacity executor with one job inside the
guarded section. -/
theorem semaphore_bounds_holders_witness :
    (⟨4, 1⟩ : SemState).holding ≤ max_concurrent_default :=
  semaphore_bounds_holders max_concurrent_default ⟨4, 1⟩
    (SemReachable.step SemReachable.start
      (SemStep.acquire ⟨max_concurrent_default, 0⟩ (by decide)))

/-! ## Security-check exception policy (src/utils/security.py)

Each fallible check is embedded by the value its `except` handler returns.
The sub-checks `_check_ip_security` (security.py:257-259) and
`_check_action_permission` (security.py:283-285) return `{'allowed': True}`
from their handlers; the top-level `check_user_permission` handler
(security.py:159-167) returns a deny dict — its comment reads
"Fail securely - deny on error". -/

structure PermCheckResult where
  allowed : Bool
  reason : String := ""
  security_level : String := ""
  error : Option String := none
  deriving Repr, DecidableEq

/-- The value `check_user_permission` returns when its body raises. -/
def check_user_permission_error_result (e : String) : PermCheckResult :=
  { allowed := false, reason := "Security check failed",
    security_level := "unknown", error := some e }

/-- The value `_check_ip_security` returns when its body raises. -/
def check_ip_security_error_result : PermCheckResult :=
  { allowed := true }

/-- The value `_check_action_permission` returns when its body raises. -/
def check_action_permission_error_result : PermCheckResult :=
  { allowed := true }

/-! ### Claim C8 — fail-open vs fail-closed on internal errors -/

/-- C8 counterexample: the claim says an internal exception in the
top-level `check_user_permission` is treated as allow; at any concrete
error its handler answers `allowed = false`. -/
theorem fail_open_counterexample :
    (check_user_permission_error_result "database offline").allowed = false := rfl

/-- C8 (amended).  Only the sub-checks fail open: an exception inside the
IP check or the action-permission check yields allow, while an exception
reaching the top-level `check_user_permission` handler yields deny
("Security check failed"). -/
theorem security_check_error_policy :
    check_ip_security_error_result.allowed = true ∧
    check_action_permission_error_result.allowed = true ∧
    (∀ e : String, (check_user_permission_error_result e).allowed = false ∧
      (check_user_permission_error_result e).reason = "Security check failed") :=
  ⟨rfl, rfl, fun _ => ⟨rfl, rfl⟩⟩

/-! ## URL validation (src/utils/security.py `is_valid_youtube_url`,
src/utils/download_manager.py `is_valid_youtube_url`)

The standard-library calls are modelled over `List Char`:
`urllib.parse.urlparse` for absolute URLs (fragment dropped, `scheme://`
split at the first colon, netloc up to the first `/` or `?`, query after the
first `?`), `urllib.parse.parse_qs` without percent-decoding (blank values
dropped, first value per key, split at the first `=`), Python's
case-insensitive regex search as substring scans over the lowercased text,
`str.replace('www.', '')` as a left-to-right non-overlapping scan, and
`^[a-zA-Z0-9_-]{11}$` as a length-11 all-chars-allowed test. -/

def isSpaceChar (c : Char) : Bool :=
  c == ' ' || c == '\t' || c == '\n' || c == '\r' || c == '\x0b' || c == '\x0c'

def subAt : List Char → List Char → Bool
  | [], _ => true
  | _ :: _, [] => false
  | a :: s1, b :: s2 => a == b && subAt s1 s2

def hasSub (sub : List Char) : List Char → Bool
  | [] => subAt sub []
  | c :: cs => subAt sub (c :: cs) || hasSub sub cs

def afterWsParen : List Char → Bool
  | [] => false
  | c :: cs => if c == '(' then true else if isSpaceChar c then afterWsParen cs else false

def hasTokenWsParen (tok : List Char) : List Char → Bool
  | [] => false
  | c :: cs =>
      (subAt tok (c :: cs) && afterWsParen (List.drop tok.length (c :: cs))) ||
        hasTokenWsParen tok cs

def afterWs1 (tok : List Char) : List Char → Bool
  | [] => false
  | c :: cs => isSpaceChar c && (subAt tok cs || afterWs1 tok cs)

def hasTokWsTok (t1 t2 : List Char) : List Char → Bool
  | [] => false
  | c :: cs =>
      (subAt t1 (c :: cs) && afterWs1 t2 (List.drop t1.length (c :: cs))) ||
        hasTokWsTok t1 t2 cs

/-- `str.lower()` character-wise (the URLs and patterns involved are
ASCII). -/
def toLowerStr (s : String) : String := String.mk (s.data.map Char.toLower)

/-- The denylist `malicious_patterns` (security.py:56-62): all five regexes
are case-insensitive, so they are scanned over the lowercased text. -/
def has_malicious_pattern (s : String) : Bool :=
  let l := (toLowerStr s).data
  hasSub "javascript".data l || hasSub "vbscript".data l ||
  hasSub "onload".data l || hasSub "onerror".data l || hasSub "onclick".data l ||
  hasSub "<script".data l || hasSub "</script>".data l ||
  hasSub "<iframe".data l || hasSub "</iframe>".data l ||
  hasTokenWsParen "eval".data l || hasTokenWsParen "settimeout".data l ||
  hasTokenWsParen "setinterval".data l ||
  hasSub "document.".data l || hasSub "window.".data l || hasSub "location.".data l ||
  hasTokWsTok "union".data "select".data l ||
  hasTokWsTok "drop".data "table".data l ||
  hasTokWsTok "delete".data "from".data l

/-- `urllib.parse.urlparse` output, restricted to the fields the validators
read. -/
structure ParsedUrl where
  scheme : String
  netloc : String
  path : String
  query : String
  deriving Repr, DecidableEq

def dropFragment : List Char → List Char
  | [] => []
  | c :: cs => if c == '#' then [] else c :: dropFragment cs

/-- Split `scheme://rest` at the first colon when it is followed by `//`. -/
def splitScheme : List Char → Option (List Char × List Char)
  | [] => none
  | c :: cs =>
      if c == ':' then
        match cs with
        | '/' :: '/' :: rest => some ([], rest)
        | _ => none
      else
        match splitScheme cs with
        | some (sch, rest) => some (c :: sch, rest)
        | none => none

/-- The netloc runs up to the first `/` or `?`. -/
def splitNetloc : List Char → List Char × List Char
  | [] => ([], [])
  | c :: cs =>
      if c == '/' || c == '?' then ([], c :: cs)
      else
        let p := splitNetloc cs
        (c :: p.1, p.2)

/-- The path runs up to the first `?`; the query is what follows. -/
def splitQuery : List Char → List Char × List Char
  | [] => ([], [])
  | c :: cs =>
      if c == '?' then ([], cs)
      else
        let p := splitQuery cs
        (c :: p.1, p.2)

/-- `urllib.parse.urlparse`: fragment dropped, `scheme://` recognised at the
first colon, a scheme-less `//host` form still yields a netloc, anything
else is all path+query (so a URL with no `//` has an empty netloc, exactly
what the validators reject as "No domain in URL"). -/
def urlparse (url : String) : ParsedUrl :=
  let cs := dropFragment url.data
  match splitScheme cs with
  | some (sch, rest) =>
      let np := splitNetloc rest
      let pq := splitQuery np.2
      { scheme := String.mk sch, netloc := String.mk np.1,
        path := String.mk pq.1, query := String.mk pq.2 }
  | none =>
      match cs with
      | '/' :: '/' :: rest =>
          let np := splitNetloc rest
          let pq := splitQuery np.2
          { scheme := "", netloc := String.mk np.1,
            path := String.mk pq.1, query := String.mk pq.2 }
      | _ =>
          let pq := splitQuery cs
          { scheme := "", netloc := "", path := String.mk pq.1,
            query := String.mk pq.2 }

/-- Split a query string on `&`. -/
def splitOnAmp : List Char → List (List Char)
  | [] => [[]]
  | c :: cs =>
      let r := splitOnAmp cs
      if c = '&' then [] :: r
      else
        match r with
        | [] => [[c]]
        | g :: gs => (c :: g) :: gs

/-- Split a `key=value` chunk at its first `=`; chunks without `=` give
nothing. -/
def splitEq : List Char → Option (List Char × List Char)
  | [] => none
  | c :: cs =>
      if c = '=' then some ([], cs)
      else
        match splitEq cs with
        | some (k, v) => some (c :: k, v)
        | none => none

/-- `parse_qs(query).get(key, [None])[0]`: the first non-blank value bound
to `key` (Python drops blank values by default; percent-decoding is not
modelled). -/
def parse_qs_first (query : String) (key : String) : Option String :=
  ((splitOnAmp query.data).filterMap (fun p =>
      match splitEq p with
      | some (k, v) =>
          if String.mk k = key ∧ v ≠ [] then some (String.mk v) else none
      | none => none)).head?

/-- One character of the video-ID class `[a-zA-Z0-9_-]`. -/
def is_video_id_char (c : Char) : Bool :=
  (decide ('a' ≤ c) && decide (c ≤ 'z')) ||
  (decide ('A' ≤ c) && decide (c ≤ 'Z')) ||
  (decide ('0' ≤ c) && decide (c ≤ '9')) || c == '_' || c == '-'

/-- `re.match(r'^[a-zA-Z0-9_-]{11}$', s)`. -/
def matches_video_id (s : String) : Bool :=
  s.length == 11 && s.data.all is_video_id_char

/-- `netloc.replace('www.', '')`: left-to-right, non-overlapping. -/
def replace_www : List Char → List Char
  | [] => []
  | 'w' :: 'w' :: 'w' :: '.' :: cs => replace_www cs
  | c :: cs => c :: replace_www cs

/-- `path.lstrip('/')`. -/
def lstrip_slash : List Char → List Char
  | [] => []
  | c :: cs => if c == '/' then lstrip_slash cs else c :: cs

/-- `allowed_domains` (security.py:65-68) = `valid_domains`
(download_manager.py:533-536). -/
def allowed_domains : List String :=
  ["youtube.com", "www.youtube.com", "m.youtube.com", "youtu.be",
   "music.youtube.com"]

/-- `blocked_domains` (security.py:70-74). -/
def blocked_domains : List String :=
  ["malicious-site.com", "phishing-site.net", "spam-site.org"]

/-- The body of `SecurityManager.is_valid_youtube_url` from the parse
onwards (security.py:303-351): domain allow/deny lists on the
`www.`-stripped netloc, then the 11-character video-ID rule — from the path
for `youtu.be`, from the `v` query parameter behind a `/watch` or `/shorts`
path for the canonical hosts. -/
def validate_parsed_url (parsed : ParsedUrl) : Bool × String :=
  if parsed.netloc = "" then (false, "No domain in URL")
  else
    let domain := String.mk (replace_www parsed.netloc.data)
    if blocked_domains.contains domain then (false, "Domain is blocked")
    else if allowed_domains.contains domain = false then
      (false, "Not a valid YouTube domain")
    else if domain = "youtu.be" then
      let video_id := String.mk (lstrip_slash parsed.path.data)
      if video_id = "" ∨ video_id.length ≠ 11 then
        (false, "Invalid YouTube video ID")
      else if matches_video_id video_id = false then
        (false, "Invalid video ID format")
      else (true, "Valid YouTube URL")
    else
      if (subAt "/watch".data parsed.path.data ||
          subAt "/shorts".data parsed.path.data) = false then
        (false, "Not a valid YouTube video URL")
      else
        match parse_qs_first parsed.query "v" with
        | none => (false, "No video ID found")
        | some video_id =>
            if video_id.length ≠ 11 then (false, "Invalid video ID length")
            else if matches_video_id video_id = false then
              (false, "Invalid video ID characters")
            else (true, "Valid YouTube URL")

/-- `SecurityManager.is_valid_youtube_url` (security.py:287-355): the
guards on the raw string, then `urlparse(url.lower())` and the domain/ID
validation.  Returns the `(ok, reason)` pair of the source. -/
def is_valid_youtube_url (url : String) : Bool × String :=
  if url = "" then (false, "Invalid URL format")
  else if url.length > 2000 then (false, "URL too long")
  else if has_malicious_pattern url then
    (false, "Malicious content detected in URL")
  else validate_parsed_url (urlparse (toLowerStr url))

/-- The body of `AdvancedDownloadManager.is_valid_youtube_url`
(download_manager.py:525-559) after its parse: raw netloc against the
domain list, path-derived ID for `youtu.be`, `v` parameter behind a path
*containing* `/watch` or `/shorts` otherwise; playlist/channel paths fall
through to `False`. -/
def dm_validate_parsed_url (parsed : ParsedUrl) : Bool :=
  if allowed_domains.contains parsed.netloc = false then false
  else if parsed.netloc = "youtu.be" then
    decide ((String.mk (lstrip_slash parsed.path.data)).length = 11)
  else if hasSub "/watch".data parsed.path.data ||
          hasSub "/shorts".data parsed.path.data then
    match parse_qs_first parsed.query "v" with
    | none => false
    | some video_id => decide (video_id.length = 11)
  else false

/-- `AdvancedDownloadManager.is_valid_youtube_url`
(download_manager.py:525-559). -/
def dm_is_valid_youtube_url (url : String) : Bool :=
  dm_validate_parsed_url (urlparse (toLowerStr url))

/-- The video ID the security validator extracts from a parsed URL: the
slash-stripped path for the short-link host, else the first `v` query
value. -/
def parsed_video_id (p : ParsedUrl) : Option String :=
  if String.mk (replace_www p.netloc.data) = "youtu.be" then
    let vid := String.mk (lstrip_slash p.path.data)
    if vid = "" then none else some vid
  else parse_qs_first p.query "v"

/-- The video ID the download-manager validator extracts from a parsed
URL. -/
def dm_parsed_video_id (p : ParsedUrl) : Option String :=
  if p.netloc = "youtu.be" then
    some (String.mk (lstrip_slash p.path.data))
  else parse_qs_first p.query "v"

/-- The `www.`-normalized domain the security validator holds against its
allow-list. -/
def normalized_domain (url : String) : String :=
  String.mk (replace_www (urlparse (toLowerStr url)).netloc.data)

def extracted_video_id (url : String) : Option String :=
  parsed_video_id (urlparse (toLowerStr url))

def dm_extracted_video_id (url : String) : Option String :=
  dm_parsed_video_id (urlparse (toLowerStr url))

lemma validate_parsed_url_sound (p : ParsedUrl)
    (h : (validate_parsed_url p).1 = true) :
    allowed_domains.contains (String.mk (replace_www p.netloc.data)) = true ∧
    ∃ vid, parsed_video_id p = some vid ∧ vid.length = 11 ∧
           matches_video_id vid = true := by
  simp only [validate_parsed_url] at h
  split_ifs at h with hnet hblock hallow hyb hvid hmat hpath <;> try simp at h
  · push_neg at hvid
    refine ⟨eq_true_of_ne_false hallow,
            String.mk (lstrip_slash p.path.data), ?_, hvid.2,
            eq_true_of_ne_false hmat⟩
    simp only [parsed_video_id, if_pos hyb, if_neg hvid.1]
  · cases hq : parse_qs_first p.query "v" with
    | none => simp only [hq] at h; simp at h
    | some vid =>
        simp only [hq] at h
        split_ifs at h with hlen hmat2 <;> try simp at h
        refine ⟨eq_true_of_ne_false hallow, vid, ?_, ?_, ?_⟩
        · simp only [parsed_video_id, if_neg hyb, hq]
        · omega
        · exact eq_true_of_ne_false hmat2

lemma dm_validate_parsed_url_sound (p : ParsedUrl)
    (h : dm_validate_parsed_url p = true) :
    allowed_domains.contains p.netloc = true ∧
    ∃ vid, dm_parsed_video_id p = some vid ∧ vid.length = 11 := by
  simp only [dm_validate_parsed_url] at h
  split_ifs at h with hallow hyb hpath <;> try simp at h
  · refine ⟨eq_true_of_ne_false hallow,
            String.mk (lstrip_slash p.path.data), ?_, ?_⟩
    · simp only [dm_parsed_video_id, if_pos hyb]
    · simpa using h
  · cases hq : parse_qs_first p.query "v" with
    | none => simp only [hq] at h; simp at h
    | some vid =>
        simp only [hq] at h
        refine ⟨eq_true_of_ne_false hallow, vid, ?_, by simpa using h⟩
        simp only [dm_parsed_video_id, if_neg hyb, hq]

/-! ### Claim C5 — URL validation accepts only allow-listed hosts with an
11-character video ID -/

/-- C5.  Both validators accept a locator only when the host is on the
fixed allow-list (the security validator compares the `www.`-normalized
host, the download-manager one the raw host) and the extracted video ID —
slash-stripped path for the short-link host, first `v` query value behind a
`/watch`/`/shorts`-shaped path for the canonical hosts — is exactly 11
characters (the security validator additionally enforcing the
`[a-zA-Z0-9_-]` alphabet); concretely, a 10-character short-link ID and a
playlist-shaped path carrying an 11-character `v` parameter are both
rejected by both validators, with no step beyond pure string work. -/
theorem url_validation_sound :
    (∀ url : String, (is_valid_youtube_url url).1 = true →
        allowed_domains.contains (normalized_domain url) = true ∧
        ∃ vid, extracted_video_id url = some vid ∧ vid.length = 11 ∧
               matches_video_id vid = true) ∧
    (∀ url : String, dm_is_valid_youtube_url url = true →
        allowed_domains.contains (urlparse (toLowerStr url)).netloc = true ∧
        ∃ vid, dm_extracted_video_id url = some vid ∧ vid.length = 11) ∧
    ((is_valid_youtube_url "https://youtu.be/abcdefghij").1 = false ∧
     dm_is_valid_youtube_url "https://youtu.be/abcdefghij" = false ∧
     (is_valid_youtube_url "https://www.youtube.com/playlist?v=abcdefghijk").1
        = false ∧
     dm_is_valid_youtube_url "https://www.youtube.com/playlist?v=abcdefghijk"
        = false) := by
  refine ⟨?_, ?_, by decide, by decide, by decide, by decide⟩
  · intro url h
    have hv : (validate_parsed_url (urlparse (toLowerStr url))).1 = true := by
      simp only [is_valid_youtube_url] at h
      split_ifs at h <;> simp_all
    exact validate_parsed_url_sound _ hv
  · intro url h
    exact dm_validate_parsed_url_sound _ h

/-- C5 witness: the soundness direction applied to concrete accepted
locators of both shapes. -/
theorem url_validation_sound_witness :
    (allowed_domains.contains (normalized_domain "https://youtu.be/abcdefghijk")
        = true ∧
     ∃ vid, extracted_video_id "https://youtu.be/abcdefghijk" = some vid ∧
            vid.length = 11 ∧ matches_video_id vid = true) ∧
    (allowed_domains.contains
        (urlparse (toLowerStr "https://www.youtube.com/watch?v=dQw4w9WgXcQ")).netloc
        = true ∧
     ∃ vid, dm_extracted_video_id "https://www.youtube.com/watch?v=dQw4w9WgXcQ"
              = some vid ∧ vid.length = 11) :=
  ⟨url_validation_sound.1 "https://youtu.be/abcdefghijk" (by decide),
   url_validation_sound.2.1 "https://www.youtube.com/watch?v=dQw4w9WgXcQ"
     (by decide)⟩

end AKG
